import Mathlib

/-!
Verification of the drive-by-wire (DBW) node of `ros/src/twist_controller/dbw_node.py`.

The node subscribes to `/twist_cmd`, `/current_velocity` and `/vehicle/dbw_enabled`,
and on a periodic loop computes `(throttle, brake, steering)` from the `Controller`
object and publishes actuation commands.  We embed the node as an explicit state
machine: subscriber callbacks and loop ticks are events, and each event maps the
node state to a successor state together with the list of messages published
during that event.  Scalars are modelled as rationals.

The `Controller` class itself (the `twist_controller` module) is not part of the
repository sources available here; the node-level definitions are therefore
parameterised by an arbitrary control function of the shape the node actually
calls (three scalar inputs, returning a throttle/brake/steer triple and an updated
controller state).  A separate, clearly marked section models the controller
from the specification for the claims that concern its internals.
-/

namespace DBW

/-- Twist message as read by the node: of an incoming `TwistStamped` the loop
reads only `twist.linear.x` and `twist.angular.z`; the remaining fields are
never consulted, so the embedding carries just these two. -/
structure TwistMsg where
  linear_x : ℚ
  angular_z : ℚ
  deriving DecidableEq

/-- Pedal command type constants `ThrottleCmd.CMD_PERCENT` / `BrakeCmd.CMD_TORQUE`. -/
inductive PedalCmdType where
  | percent
  | torque
  deriving DecidableEq

/-- `ThrottleCmd` fields set by `DBWNode.publish`. -/
structure ThrottleCmdMsg where
  enable : Bool
  pedal_cmd_type : PedalCmdType
  pedal_cmd : ℚ
  deriving DecidableEq

/-- `SteeringCmd` fields set by `DBWNode.publish`. -/
structure SteeringCmdMsg where
  enable : Bool
  steering_wheel_angle_cmd : ℚ
  deriving DecidableEq

/-- `BrakeCmd` fields set by `DBWNode.publish`. -/
structure BrakeCmdMsg where
  enable : Bool
  pedal_cmd_type : PedalCmdType
  pedal_cmd : ℚ
  deriving DecidableEq

/-- A message published by the node on one of its three publishers. -/
inductive PubMsg where
  | throttle (m : ThrottleCmdMsg)
  | steer (m : SteeringCmdMsg)
  | brake (m : BrakeCmdMsg)
  deriving DecidableEq

/-- True exactly for messages on the throttle publisher. -/
def PubMsg.isThrottle : PubMsg → Bool
  | .throttle _ => true
  | _ => false

/-- True exactly for messages on the steering publisher. -/
def PubMsg.isSteer : PubMsg → Bool
  | .steer _ => true
  | _ => false

/-- True exactly for messages on the brake publisher. -/
def PubMsg.isBrake : PubMsg → Bool
  | .brake _ => true
  | _ => false

/-- The mutable state of the `DBWNode` object: the last received twist command
and current velocity (both `None` initially), the `dbw_enabled` flag and the
`oneshot` flag, plus the state of the owned `Controller` object, abstracted as
an arbitrary type `C`. -/
structure NodeState (C : Type) where
  current_command : Option TwistMsg
  current_velocity : Option TwistMsg
  dbw_enabled : Bool
  oneshot : Bool
  ctrl : C

/-- A control function of the shape the node calls at
`self.controller.control(linear_target, angular_target, linear_current)`:
it consumes the controller state and the three scalars and yields
`(throttle, brake, steering)` together with the updated controller state. -/
def CtrlFn (C : Type) : Type :=
  C → ℚ → ℚ → ℚ → (ℚ × ℚ × ℚ) × C

/-- External stimuli of the node: one of the three subscriber callbacks firing,
or one iteration of the 2 Hz loop. -/
inductive Event where
  | twistCmd (m : TwistMsg)
  | currentVelocity (m : TwistMsg)
  | dbwEnabled (b : Bool)
  | tick

/-- True exactly for `/twist_cmd` events. -/
def Event.isTwistCmd : Event → Bool
  | .twistCmd _ => true
  | _ => false

/-- True exactly for `/current_velocity` events. -/
def Event.isCurrentVelocity : Event → Bool
  | .currentVelocity _ => true
  | _ => false

namespace DBWNode

variable {C : Type}

/-- Node state after `__init__` (before any callback): `current_command = None`,
`current_velocity = None`, `dbw_enabled = False`, `oneshot = False`, and the
freshly constructed controller state `c0`. -/
def initState (c0 : C) : NodeState C :=
  { current_command := none
    current_velocity := none
    dbw_enabled := false
    oneshot := false
    ctrl := c0 }

/-- `DBWNode.publish(throttle, brake, steer)`: builds a `ThrottleCmd` with
`enable = True`, `pedal_cmd_type = CMD_PERCENT`, `pedal_cmd = throttle` and
publishes it only when `oneshot` is still false, setting `oneshot`; always
publishes a `SteeringCmd` with `enable = True` and
`steering_wheel_angle_cmd = steer`; builds a `BrakeCmd` but the
`brake_pub.publish` call is commented out in the source, so no brake message
is emitted. -/
def publish (s : NodeState C) (throttle brake steer : ℚ) : NodeState C × List PubMsg :=
  let tcmd : ThrottleCmdMsg := ⟨true, .percent, throttle⟩
  let tpart : NodeState C × List PubMsg :=
    if s.oneshot = false then ({ s with oneshot := true }, [PubMsg.throttle tcmd])
    else (s, [])
  let scmd : SteeringCmdMsg := ⟨true, steer⟩
  let _bcmd : BrakeCmdMsg := ⟨true, .torque, brake⟩
  (tpart.1, tpart.2 ++ [PubMsg.steer scmd])

/-- One iteration of `DBWNode.loop`: when both `current_command` and
`current_velocity` have been received, extract `twist.linear.x`,
`twist.angular.z` and the current `twist.linear.x`, call
`controller.control` on them, and publish; the `if self.dbw_enabled:` guard
is commented out in the source, so publication is unconditional.  Otherwise
the iteration only sleeps. -/
def tickStep (f : CtrlFn C) (s : NodeState C) : NodeState C × List PubMsg :=
  match s.current_command, s.current_velocity with
  | some cmd, some vel =>
    let r := f s.ctrl cmd.linear_x cmd.angular_z vel.linear_x
    publish { s with ctrl := r.2 } r.1.1 r.1.2.1 r.1.2.2
  | _, _ => (s, [])

/-- `DBWNode.callback_twist_cmd`: stores the message. -/
def callback_twist_cmd (s : NodeState C) (m : TwistMsg) : NodeState C :=
  { s with current_command := some m }

/-- `DBWNode.callback_current_velocity`: stores the message. -/
def callback_current_velocity (s : NodeState C) (m : TwistMsg) : NodeState C :=
  { s with current_velocity := some m }

/-- `DBWNode.callback_dbw_enabled`: stores `msg.data` in `self.dbw_enabled`;
nothing else happens (in particular the controller object is not touched). -/
def callback_dbw_enabled (s : NodeState C) (b : Bool) : NodeState C :=
  { s with dbw_enabled := b }

/-- Small-step semantics of the node: callbacks publish nothing; a loop tick
behaves as `tickStep`. -/
def step (f : CtrlFn C) (s : NodeState C) : Event → NodeState C × List PubMsg
  | .twistCmd m => (callback_twist_cmd s m, [])
  | .currentVelocity m => (callback_current_velocity s m, [])
  | .dbwEnabled b => (callback_dbw_enabled s b, [])
  | .tick => tickStep f s

/-- Run the node from state `s` over a sequence of events, collecting all
published messages in order. -/
def run (f : CtrlFn C) : NodeState C → List Event → NodeState C × List PubMsg
  | s, [] => (s, [])
  | s, e :: es =>
    let r := step f s e
    let r' := run f r.1 es
    (r'.1, r.2 ++ r'.2)

end DBWNode

/-- The ten values `DBWNode.__init__` loads through `rospy.get_param`. -/
structure LoadedParams where
  vehicle_mass : ℚ
  fuel_capacity : ℚ
  brake_deadband : ℚ
  decel_limit : ℚ
  accel_limit : ℚ
  wheel_radius : ℚ
  wheel_base : ℚ
  steer_ratio : ℚ
  max_lat_accel : ℚ
  max_steer_angle : ℚ
  deriving DecidableEq

/-- The default parameter values written in `DBWNode.__init__`. -/
def defaultLoadedParams : LoadedParams :=
  { vehicle_mass := 1736.35
    fuel_capacity := 13.5
    brake_deadband := 0.1
    decel_limit := -5
    accel_limit := 1
    wheel_radius := 0.2413
    wheel_base := 2.8498
    steer_ratio := 14.8
    max_lat_accel := 3
    max_steer_angle := 8 }

/-- The `parms` dictionary passed to `Controller(**parms)`: exactly seven keys. -/
structure CtrlParms where
  wheel_base : ℚ
  steer_ratio : ℚ
  min_velocity : ℚ
  max_lat_accel : ℚ
  max_steer_angle : ℚ
  decel_limit : ℚ
  accel_limit : ℚ
  deriving DecidableEq

/-- Construction of the `parms` dictionary in `DBWNode.__init__` from the
loaded parameters: `min_velocity` is the literal `0.`; `vehicle_mass`,
`fuel_capacity`, `brake_deadband` and `wheel_radius` do not appear. -/
def mkControllerParms (lp : LoadedParams) : CtrlParms :=
  { wheel_base := lp.wheel_base
    steer_ratio := lp.steer_ratio
    min_velocity := 0
    max_lat_accel := lp.max_lat_accel
    max_steer_angle := lp.max_steer_angle
    decel_limit := lp.decel_limit
    accel_limit := lp.accel_limit }

end DBW

namespace Spec

/-- Modelled from the spec: clamp of §4.2/§4.3, `clamp(x, lo, hi)`. -/
def clampQ (lo hi x : ℚ) : ℚ :=
  max lo (min x hi)

/-- Modelled from the spec: the divisor of the lateral-acceleration bound in
YawController §4.3 step 2, `max(current_linear_velocity, min_velocity)`,
with `min_velocity` taken from the constructed parameters.  The YawController
implementation is not among the sources. -/
def yawRateDivisor (min_velocity current_linear_velocity : ℚ) : ℚ :=
  max current_linear_velocity min_velocity

/-- Modelled from the spec: the immutable `VehicleParameters` struct of §3.
The `twist_controller` module holding the real `Controller` is not among the
sources, so the parameter set follows the spec's data model. -/
structure VehicleParameters where
  wheel_base : ℚ
  steer_ratio : ℚ
  min_velocity : ℚ
  max_lat_accel : ℚ
  max_steer_angle : ℚ
  decel_limit : ℚ
  accel_limit : ℚ
  brake_deadband : ℚ
  vehicle_mass : ℚ
  fuel_capacity : ℚ
  wheel_radius : ℚ
  deriving DecidableEq

/-- Modelled from the spec: PID gains and output bounds of §4.2. -/
structure PIDGains where
  kp : ℚ
  ki : ℚ
  kd : ℚ
  min_output : ℚ
  max_output : ℚ
  deriving DecidableEq

/-- Modelled from the spec: PIDController state of §4.2, the accumulated
integral and the previous error for the derivative term. -/
structure PIDState where
  integral : ℚ
  prev_error : ℚ
  deriving DecidableEq

/-- Modelled from the spec: `PIDController.reset()` zeroes integral and
previous-error state (§4.2). -/
def PIDController.reset : PIDState :=
  { integral := 0, prev_error := 0 }

/-- Modelled from the spec: `PIDController.step(error, dt)` of §4.2.
`dt ≤ 0` is rejected with an InvalidInput error; otherwise the integral is
accumulated, a derivative taken, the output clamped, and on saturation the
integral accumulation of this step is rolled back (anti-windup). -/
def PIDController.step (g : PIDGains) (st : PIDState) (error dt : ℚ) :
    Except Unit (ℚ × PIDState) :=
  if dt ≤ 0 then .error () else
    let integralAcc := st.integral + error * dt
    let derivative := (error - st.prev_error) / dt
    let raw := g.kp * error + g.ki * integralAcc + g.kd * derivative
    let out := clampQ g.min_output g.max_output raw
    let integralNew := if out = raw then integralAcc else st.integral
    .ok (out, { integral := integralNew, prev_error := error })

/-- Modelled from the spec: LowPassFilter time constants of §4.1. -/
structure LowPassFilter where
  time_constant : ℚ
  sample_period : ℚ
  deriving DecidableEq

/-- Modelled from the spec: LowPassFilter state of §4.1, the last output, or
`none` before the first call. -/
structure LPFState where
  last : Option ℚ
  deriving DecidableEq

/-- Modelled from the spec: `LowPassFilter.filter(new_sample)` of §4.1.  First
output equals the first input; afterwards exponential smoothing with
`α = time_constant / (time_constant + sample_period)`. -/
def LowPassFilter.filt (f : LowPassFilter) (st : LPFState) (x : ℚ) : ℚ × LPFState :=
  match st.last with
  | none => (x, ⟨some x⟩)
  | some l =>
    let a := f.time_constant / (f.time_constant + f.sample_period)
    let y := a * x + (1 - a) * l
    (y, ⟨some y⟩)

/-- Modelled from the spec: fuel density constant used in the brake-torque
formula of §4.4 step 5 (kg per unit of fuel capacity). -/
def fuelDensity : ℚ := 2.858

/-- Modelled from the spec: the orchestrator's internal state (§2): one
LowPassFilter state and one PIDController state. -/
structure CtrlState where
  lpf : LPFState
  pid : PIDState
  deriving DecidableEq

/-- Modelled from the spec: §4.4 step 5, the split of the signed PID output
into the throttle/brake pair.  Positive output becomes throttle clamped to
`[0, accel_limit]` with zero brake; non-positive output becomes zero throttle
and a brake torque when the requested deceleration exceeds the deadband. -/
def splitPid (p : VehicleParameters) (pid_output : ℚ) : ℚ × ℚ :=
  if 0 < pid_output then
    (clampQ 0 p.accel_limit pid_output, 0)
  else
    let required_deceleration := clampQ p.decel_limit 0 pid_output
    if p.brake_deadband < |required_deceleration| then
      (0, |required_deceleration| * (p.vehicle_mass + p.fuel_capacity * fuelDensity)
        * p.wheel_radius)
    else
      (0, 0)

/-- Modelled from the spec: `Controller.control` of §4.4.  The steering
computation (§4.3, atan-based geometry) is abstracted as the function
argument `steerFn`, applied to target linear velocity, target angular
velocity and filtered velocity; it does not influence throttle or brake.
When `dbw_enabled` is false the PID is reset and a neutral output returned;
otherwise the current velocity is filtered, the velocity error stepped
through the PID (failing on `dt ≤ 0`), and the PID output split into
throttle/brake. -/
def Controller.control (p : VehicleParameters) (g : PIDGains) (lp : LowPassFilter)
    (steerFn : ℚ → ℚ → ℚ → ℚ) (st : CtrlState)
    (target_linear target_angular current_linear : ℚ) (dbw_enabled : Bool) (dt : ℚ) :
    Except Unit ((ℚ × ℚ × ℚ) × CtrlState) :=
  if dbw_enabled = false then
    .ok ((0, 0, 0), { st with pid := PIDController.reset })
  else
    let fr := lp.filt st.lpf current_linear
    let velocity_error := target_linear - fr.1
    match PIDController.step g st.pid velocity_error dt with
    | .error e => .error e
    | .ok (pid_output, pid') =>
      let tb := splitPid p pid_output
      let steer := steerFn target_linear target_angular fr.1
      .ok ((tb.1, tb.2, steer), { lpf := fr.2, pid := pid' })

/-- Sample vehicle parameters for evaluating the modelled controller: the
node's default parameter values, with `min_velocity` and `brake_deadband`
set to one tenth. -/
def testParams : VehicleParameters :=
  { wheel_base := 2.8498
    steer_ratio := 14.8
    min_velocity := 1/10
    max_lat_accel := 3
    max_steer_angle := 8
    decel_limit := -5
    accel_limit := 1
    brake_deadband := 1/10
    vehicle_mass := 1736.35
    fuel_capacity := 13.5
    wheel_radius := 0.2413 }

/-- Sample PID gains for evaluating the modelled controller. -/
def testGains : PIDGains :=
  { kp := 1, ki := 0, kd := 0, min_output := -5, max_output := 1 }

/-- Sample low-pass filter constants. -/
def testLpf : LowPassFilter :=
  { time_constant := 1/2, sample_period := 1/50 }

/-- A steering function returning zero, standing in for the yaw geometry in
concrete evaluations. -/
def zeroSteer : ℚ → ℚ → ℚ → ℚ :=
  fun _ _ _ => 0

/-- The controller state right after construction: uninitialised filter,
zeroed PID. -/
def freshCtrlState : CtrlState :=
  { lpf := ⟨none⟩, pid := { integral := 0, prev_error := 0 } }

end Spec

namespace Spec

lemma splitPid_exclusive (p : VehicleParameters) (x : ℚ) :
    (splitPid p x).1 = 0 ∨ (splitPid p x).2 = 0 := by
  unfold splitPid
  split_ifs with h1
  · right; rfl
  · left
    dsimp only
    split_ifs <;> rfl

lemma control_exclusive (p : VehicleParameters) (g : PIDGains) (lp : LowPassFilter)
    (steerFn : ℚ → ℚ → ℚ → ℚ) (st : CtrlState) (tl ta cl : ℚ) (dbw : Bool) (dt : ℚ)
    (out : ℚ × ℚ × ℚ) (st' : CtrlState)
    (h : Controller.control p g lp steerFn st tl ta cl dbw dt = .ok (out, st')) :
    out.1 = 0 ∨ out.2.1 = 0 := by
  unfold Controller.control at h
  cases hdbw : dbw with
  | false =>
    rw [hdbw] at h
    simp only [if_true, reduceCtorEq, Except.ok.injEq, Prod.mk.injEq] at h
    rcases h with ⟨h1, -⟩
    rw [← h1]
    left; rfl
  | true =>
    rw [hdbw] at h
    simp only [Bool.true_eq_false, if_false] at h
    cases hstep : PIDController.step g st.pid (tl - (lp.filt st.lpf cl).1) dt with
    | error e =>
      rw [hstep] at h
      exact absurd h (by simp)
    | ok val =>
      rw [hstep] at h
      simp only [Except.ok.injEq, Prod.mk.injEq] at h
      rcases h with ⟨h1, -⟩
      rw [← h1]
      exact splitPid_exclusive p val.1

end Spec

namespace DBW

/-- A sample control function used to exercise the node semantics at concrete
inputs: it ignores its inputs, commands throttle 9, brake 0 and steering 7,
and bumps its state. -/
def demoCtrl : CtrlFn ℚ :=
  fun c _ _ _ => ((9, 0, 7), c + 1)

/-- A sample control function echoing its three scalar inputs as the command
triple. -/
def echoCtrl : CtrlFn ℚ :=
  fun c tl ta cl => ((tl, ta, cl), c)

/-- A reachable node state: both subscriptions delivered, `dbw_enabled`
false, no throttle published yet. -/
def sampleStateOff : NodeState ℚ :=
  { current_command := some ⟨5, 1⟩
    current_velocity := some ⟨3, 0⟩
    dbw_enabled := false
    oneshot := false
    ctrl := 0 }

/-- The same node state with `dbw_enabled` true. -/
def sampleStateOn : NodeState ℚ :=
  { sampleStateOff with dbw_enabled := true }

/-- A node state whose controller (modelled by its spec-level internal state)
carries a non-zero accumulated PID integral. -/
def samplePidState : NodeState Spec.CtrlState :=
  { current_command := some ⟨5, 0⟩
    current_velocity := some ⟨3, 0⟩
    dbw_enabled := true
    oneshot := true
    ctrl := { lpf := ⟨none⟩, pid := { integral := 5, prev_error := 2 } } }

/-- The node's loaded parameters with the four values that never reach the
`parms` dictionary replaced by different ones. -/
def alteredLoadedParams : LoadedParams :=
  { defaultLoadedParams with
      vehicle_mass := 9999
      fuel_capacity := 0
      brake_deadband := 7
      wheel_radius := 5 }

/-- Number of messages sent on the throttle publisher. -/
def throttleCount (ms : List PubMsg) : Nat :=
  ms.countP PubMsg.isThrottle

/-- Number of messages sent on the brake publisher. -/
def brakeCount (ms : List PubMsg) : Nat :=
  ms.countP PubMsg.isBrake

/-- Remaining throttle-publication budget of a node state: one message while
`oneshot` is still false, none afterwards. -/
def oneshotBudget {C : Type} (s : NodeState C) : Nat :=
  if s.oneshot then 0 else 1

lemma publish_brakeCount {C : Type} (s : NodeState C) (t b st : ℚ) :
    brakeCount (DBWNode.publish s t b st).2 = 0 := by
  unfold DBWNode.publish brakeCount
  split <;> simp [PubMsg.isBrake]

lemma step_brakeCount {C : Type} (f : CtrlFn C) (s : NodeState C) (e : Event) :
    brakeCount (DBWNode.step f s e).2 = 0 := by
  cases e with
  | twistCmd m => simp [DBWNode.step, brakeCount]
  | currentVelocity m => simp [DBWNode.step, brakeCount]
  | dbwEnabled b => simp [DBWNode.step, brakeCount]
  | tick =>
    show brakeCount (DBWNode.tickStep f s).2 = 0
    unfold DBWNode.tickStep
    cases s.current_command <;> cases s.current_velocity
    · simp [brakeCount]
    · simp [brakeCount]
    · simp [brakeCount]
    · exact publish_brakeCount _ _ _ _

lemma run_brakeCount {C : Type} (f : CtrlFn C) :
    ∀ (es : List Event) (s : NodeState C), brakeCount (DBWNode.run f s es).2 = 0 := by
  intro es
  induction es with
  | nil => intro s; simp [DBWNode.run, brakeCount]
  | cons e es ih =>
    intro s
    simp only [DBWNode.run, brakeCount, List.countP_append]
    have h1 := step_brakeCount f s e
    have h2 := ih (DBWNode.step f s e).1
    unfold brakeCount at h1 h2
    omega

lemma publish_throttleCount {C : Type} (s : NodeState C) (t b st : ℚ) :
    throttleCount (DBWNode.publish s t b st).2 = oneshotBudget s ∧
      (DBWNode.publish s t b st).1.oneshot = true := by
  unfold DBWNode.publish throttleCount oneshotBudget
  cases h : s.oneshot <;> simp [h, PubMsg.isThrottle, PubMsg.isSteer]

lemma step_throttleCount {C : Type} (f : CtrlFn C) (s : NodeState C) (e : Event) :
    throttleCount (DBWNode.step f s e).2 + oneshotBudget (DBWNode.step f s e).1 ≤
      oneshotBudget s := by
  cases e with
  | twistCmd m =>
    simp [DBWNode.step, DBWNode.callback_twist_cmd, throttleCount, oneshotBudget]
  | currentVelocity m =>
    simp [DBWNode.step, DBWNode.callback_current_velocity, throttleCount, oneshotBudget]
  | dbwEnabled b =>
    simp [DBWNode.step, DBWNode.callback_dbw_enabled, throttleCount, oneshotBudget]
  | tick =>
    show throttleCount (DBWNode.tickStep f s).2 +
        oneshotBudget (DBWNode.tickStep f s).1 ≤ oneshotBudget s
    cases hc : s.current_command with
    | none => simp [DBWNode.tickStep, hc, throttleCount]
    | some cmd =>
      cases hv : s.current_velocity with
      | none => simp [DBWNode.tickStep, hc, hv, throttleCount]
      | some vel =>
        have h := publish_throttleCount
          { s with ctrl := (f s.ctrl cmd.linear_x cmd.angular_z vel.linear_x).2 }
          (f s.ctrl cmd.linear_x cmd.angular_z vel.linear_x).1.1
          (f s.ctrl cmd.linear_x cmd.angular_z vel.linear_x).1.2.1
          (f s.ctrl cmd.linear_x cmd.angular_z vel.linear_x).1.2.2
        rw [hc, hv] at h
        simp only [DBWNode.tickStep, hc, hv]
        rw [h.1]
        simp only [oneshotBudget, h.2, if_true]
        simp

lemma run_silent_of_no_twist {C : Type} (f : CtrlFn C) :
    ∀ (es : List Event) (s : NodeState C), s.current_command = none →
      (∀ e ∈ es, e.isTwistCmd = false) →
      (DBWNode.run f s es).2 = [] ∧ (DBWNode.run f s es).1.current_command = none := by
  intro es
  induction es with
  | nil => intro s hs _; simpa [DBWNode.run] using hs
  | cons e es ih =>
    intro s hs hall
    have hone : e.isTwistCmd = false := hall e (List.mem_cons_self e es)
    have hrest : ∀ x ∈ es, x.isTwistCmd = false := fun x hx =>
      hall x (List.mem_cons_of_mem e hx)
    cases e with
    | twistCmd m => simp [Event.isTwistCmd] at hone
    | currentVelocity m =>
      have := ih (DBWNode.callback_current_velocity s m) hs hrest
      simpa [DBWNode.run, DBWNode.step] using this
    | dbwEnabled b =>
      have := ih (DBWNode.callback_dbw_enabled s b) hs hrest
      simpa [DBWNode.run, DBWNode.step] using this
    | tick =>
      have htick : DBWNode.tickStep f s = (s, []) := by
        unfold DBWNode.tickStep
        rw [hs]
      have := ih s hs hrest
      simpa [DBWNode.run, DBWNode.step, htick] using this

lemma run_silent_of_no_velocity {C : Type} (f : CtrlFn C) :
    ∀ (es : List Event) (s : NodeState C), s.current_velocity = none →
      (∀ e ∈ es, e.isCurrentVelocity = false) →
      (DBWNode.run f s es).2 = [] ∧ (DBWNode.run f s es).1.current_velocity = none := by
  intro es
  induction es with
  | nil => intro s hs _; simpa [DBWNode.run] using hs
  | cons e es ih =>
    intro s hs hall
    have hone : e.isCurrentVelocity = false := hall e (List.mem_cons_self e es)
    have hrest : ∀ x ∈ es, x.isCurrentVelocity = false := fun x hx =>
      hall x (List.mem_cons_of_mem e hx)
    cases e with
    | currentVelocity m => simp [Event.isCurrentVelocity] at hone
    | twistCmd m =>
      have := ih (DBWNode.callback_twist_cmd s m) hs hrest
      simpa [DBWNode.run, DBWNode.step] using this
    | dbwEnabled b =>
      have := ih (DBWNode.callback_dbw_enabled s b) hs hrest
      simpa [DBWNode.run, DBWNode.step] using this
    | tick =>
      have htick : DBWNode.tickStep f s = (s, []) := by
        unfold DBWNode.tickStep
        rw [hs]
        cases s.current_command <;> rfl
      have := ih s hs hrest
      simpa [DBWNode.run, DBWNode.step, htick] using this

lemma run_throttleCount {C : Type} (f : CtrlFn C) :
    ∀ (es : List Event) (s : NodeState C),
      throttleCount (DBWNode.run f s es).2 + oneshotBudget (DBWNode.run f s es).1 ≤
        oneshotBudget s := by
  intro es
  induction es with
  | nil => intro s; simp [DBWNode.run, throttleCount]
  | cons e es ih =>
    intro s
    simp only [DBWNode.run, throttleCount, List.countP_append]
    have h1 := step_throttleCount f s e
    have h2 := ih (DBWNode.step f s e).1
    unfold throttleCount at h1 h2
    omega

end DBW

/-- C2: the source never publishes a brake command — on every tick, for every
input sequence and from every node state, no message is ever sent on the brake
publisher (the `brake_pub.publish` call is commented out in
`DBWNode.publish`). -/
theorem claim_C2_never_publishes_brake {C : Type} (f : DBW.CtrlFn C)
    (s : DBW.NodeState C) (es : List DBW.Event) :
    DBW.brakeCount (DBW.DBWNode.run f s es).2 = 0 :=
  DBW.run_brakeCount f es s

/-- C3: the source publishes the throttle command only once — from the initial
state, any event sequence yields at most one throttle message; `publish` emits
a throttle message exactly while the one-shot flag is unspent, always leaves
the flag set, and no step ever restores the spent budget. -/
theorem claim_C3_throttle_published_at_most_once {C : Type} (f : DBW.CtrlFn C)
    (c0 : C) (es : List DBW.Event) (s : DBW.NodeState C) (t b st : ℚ)
    (e : DBW.Event) :
    DBW.throttleCount (DBW.DBWNode.run f (DBW.DBWNode.initState c0) es).2 ≤ 1 ∧
    DBW.throttleCount (DBW.DBWNode.publish s t b st).2 = DBW.oneshotBudget s ∧
    (DBW.DBWNode.publish s t b st).1.oneshot = true ∧
    DBW.oneshotBudget (DBW.DBWNode.step f s e).1 ≤ DBW.oneshotBudget s := by
  refine ⟨?_, (DBW.publish_throttleCount s t b st).1,
    (DBW.publish_throttleCount s t b st).2, ?_⟩
  · have h := DBW.run_throttleCount f es (DBW.DBWNode.initState c0)
    have hinit : DBW.oneshotBudget (DBW.DBWNode.initState c0) = 1 := rfl
    omega
  · have h := DBW.step_throttleCount f s e
    omega

/-- C9: before both a `/twist_cmd` and a `/current_velocity` message have been
received, no loop iteration publishes anything — any event sequence containing
no twist-command events (or no current-velocity events) produces an empty
publication list from the initial state. -/
theorem claim_C9_no_publish_before_both_inputs {C : Type} (f : DBW.CtrlFn C)
    (c0 : C) (es : List DBW.Event)
    (h : es.all (fun e => ! e.isTwistCmd) = true ∨
      es.all (fun e => ! e.isCurrentVelocity) = true) :
    (DBW.DBWNode.run f (DBW.DBWNode.initState c0) es).2 = [] := by
  rcases h with h | h
  · refine (DBW.run_silent_of_no_twist f es _ rfl ?_).1
    intro e he
    simpa using List.all_eq_true.mp h e he
  · refine (DBW.run_silent_of_no_velocity f es _ rfl ?_).1
    intro e he
    simpa using List.all_eq_true.mp h e he

/-- C9 witness: a concrete event sequence with a current-velocity message, a
dbw-enable message and a tick but no twist command publishes nothing. -/
theorem claim_C9_witness :
    ([DBW.Event.currentVelocity ⟨1, 0⟩, DBW.Event.dbwEnabled true,
        DBW.Event.tick].all (fun e => ! e.isTwistCmd) = true ∨
      ([DBW.Event.currentVelocity ⟨1, 0⟩, DBW.Event.dbwEnabled true,
        DBW.Event.tick].all (fun e => ! e.isCurrentVelocity) = true)) ∧
    (DBW.DBWNode.run DBW.demoCtrl (DBW.DBWNode.initState (0 : ℚ))
      [DBW.Event.currentVelocity ⟨1, 0⟩, DBW.Event.dbwEnabled true,
        DBW.Event.tick]).2 = [] :=
  ⟨Or.inl (by decide),
    claim_C9_no_publish_before_both_inputs DBW.demoCtrl 0 _ (Or.inl (by decide))⟩

/-- C10: on every loop iteration with both inputs present, exactly one
steering command is published, with `enable = true` and
`steering_wheel_angle_cmd` equal to the steering value the controller returned
on that iteration. -/
theorem claim_C10_exactly_one_steering_cmd {C : Type} (f : DBW.CtrlFn C)
    (s : DBW.NodeState C) (cmd vel : DBW.TwistMsg)
    (hc : s.current_command = some cmd) (hv : s.current_velocity = some vel) :
    (DBW.DBWNode.tickStep f s).2.filter DBW.PubMsg.isSteer =
      [DBW.PubMsg.steer
        ⟨true, (f s.ctrl cmd.linear_x cmd.angular_z vel.linear_x).1.2.2⟩] := by
  simp only [DBW.DBWNode.tickStep, hc, hv]
  unfold DBW.DBWNode.publish
  dsimp only
  split_ifs <;> simp [DBW.PubMsg.isSteer, DBW.PubMsg.isThrottle]

/-- C10 witness: at a concrete state with command (5, 1) and velocity 3, the
tick publishes exactly the steering command carrying the controller's steer
value. -/
theorem claim_C10_witness :
    DBW.sampleStateOn.current_command = some ⟨5, 1⟩ ∧
    DBW.sampleStateOn.current_velocity = some ⟨3, 0⟩ ∧
    (DBW.DBWNode.tickStep DBW.echoCtrl DBW.sampleStateOn).2.filter
        DBW.PubMsg.isSteer =
      [DBW.PubMsg.steer
        ⟨true, (DBW.echoCtrl DBW.sampleStateOn.ctrl 5 1 3).1.2.2⟩] :=
  ⟨rfl, rfl,
    claim_C10_exactly_one_steering_cmd DBW.echoCtrl DBW.sampleStateOn
      ⟨5, 1⟩ ⟨3, 0⟩ rfl rfl⟩

/-- C1: refuted on the source — at a concrete reachable state in which both
inputs are present and `dbw_enabled` is false, the loop tick still runs the
controller and publishes non-neutral actuation commands (steering 7 and, the
one-shot budget being unspent, throttle 9): the `if self.dbw_enabled:` guard
is commented out and the control call receives no dbw flag, so no
neutralisation happens and stale commands are delivered onward. -/
theorem claim_C1_dbw_disabled_still_publishes :
    DBW.sampleStateOff.dbw_enabled = false ∧
    DBW.PubMsg.steer ⟨true, 7⟩ ∈ (DBW.DBWNode.tickStep DBW.demoCtrl DBW.sampleStateOff).2 ∧
    DBW.PubMsg.throttle ⟨true, .percent, 9⟩ ∈
      (DBW.DBWNode.tickStep DBW.demoCtrl DBW.sampleStateOff).2 := by
  refine ⟨rfl, ?_, ?_⟩ <;> decide

/-- C4: refuted on the source — a `/vehicle/dbw_enabled` message carrying
`false` only stores the flag: at a concrete state whose controller carries the
non-zero PID integral 5, the callback leaves the whole controller state (and
hence the integral) untouched, and in general the callback never modifies the
controller component, so no reset happens on the transition tick. -/
theorem claim_C4_dbw_off_transition_keeps_integral :
    DBW.samplePidState.ctrl.pid.integral = 5 ∧
    DBW.samplePidState.ctrl.pid.integral ≠ 0 ∧
    (DBW.DBWNode.callback_dbw_enabled DBW.samplePidState false).dbw_enabled = false ∧
    (DBW.DBWNode.callback_dbw_enabled DBW.samplePidState false).ctrl.pid.integral = 5 ∧
    (∀ (C : Type) (s : DBW.NodeState C) (b : Bool),
      (DBW.DBWNode.callback_dbw_enabled s b).ctrl = s.ctrl) := by
  exact ⟨rfl, by decide, rfl, rfl, fun _ _ _ => rfl⟩

/-- C5: for every parameterisation, controller state and inputs, whenever the
modelled `Controller.control` returns an output, its throttle and brake
components are never both non-zero: a positive PID output zeroes the brake and
a non-positive one zeroes the throttle. -/
theorem claim_C5_throttle_brake_mutually_exclusive (p : Spec.VehicleParameters)
    (g : Spec.PIDGains) (lp : Spec.LowPassFilter) (steerFn : ℚ → ℚ → ℚ → ℚ)
    (st : Spec.CtrlState) (tl ta cl : ℚ) (dbw : Bool) (dt : ℚ)
    (out : ℚ × ℚ × ℚ) (st' : Spec.CtrlState)
    (h : Spec.Controller.control p g lp steerFn st tl ta cl dbw dt = .ok (out, st')) :
    out.1 = 0 ∨ out.2.1 = 0 :=
  Spec.control_exclusive p g lp steerFn st tl ta cl dbw dt out st' h

/-- C5 witness: a concrete enabled tick (target 5, current 3, dt 1) returns
throttle 1, brake 0, and the disjunction holds at that output. -/
theorem claim_C5_witness :
    Spec.Controller.control Spec.testParams Spec.testGains Spec.testLpf
        Spec.zeroSteer Spec.freshCtrlState 5 0 3 true 1 =
      .ok ((1, 0, 0),
        { lpf := ⟨some 3⟩, pid := { integral := 0, prev_error := 2 } }) ∧
    (((1 : ℚ), (0 : ℚ), (0 : ℚ)).1 = 0 ∨ ((1 : ℚ), (0 : ℚ), (0 : ℚ)).2.1 = 0) :=
  ⟨by norm_num [Spec.Controller.control, Spec.PIDController.step,
      Spec.LowPassFilter.filt, Spec.splitPid, Spec.clampQ, Spec.testParams,
      Spec.testGains, Spec.testLpf, Spec.zeroSteer, Spec.freshCtrlState,
      Spec.PIDController.reset],
    claim_C5_throttle_brake_mutually_exclusive Spec.testParams Spec.testGains
      Spec.testLpf Spec.zeroSteer Spec.freshCtrlState 5 0 3 true 1 (1, 0, 0)
      { lpf := ⟨some 3⟩, pid := { integral := 0, prev_error := 2 } }
      (by norm_num [Spec.Controller.control, Spec.PIDController.step,
        Spec.LowPassFilter.filt, Spec.splitPid, Spec.clampQ, Spec.testParams,
        Spec.testGains, Spec.testLpf, Spec.zeroSteer, Spec.freshCtrlState,
        Spec.PIDController.reset])⟩

/-- C6 counterexample: two concrete node states identical except for
`dbw_enabled` (true in one, false in the other) produce the same published
messages and the same controller evolution on a tick, so the control
invocation of the loop receives neither the `dbw_enabled` flag nor any
elapsed-time input — it is not invoked with all five per-tick inputs. -/
theorem claim_C6_counterexample :
    DBW.sampleStateOn.dbw_enabled = true ∧
    DBW.sampleStateOff.dbw_enabled = false ∧
    DBW.sampleStateOn.current_command = DBW.sampleStateOff.current_command ∧
    DBW.sampleStateOn.current_velocity = DBW.sampleStateOff.current_velocity ∧
    DBW.sampleStateOn.ctrl = DBW.sampleStateOff.ctrl ∧
    DBW.sampleStateOn.oneshot = DBW.sampleStateOff.oneshot ∧
    (DBW.DBWNode.tickStep DBW.echoCtrl DBW.sampleStateOn).2 =
      (DBW.DBWNode.tickStep DBW.echoCtrl DBW.sampleStateOff).2 ∧
    (DBW.DBWNode.tickStep DBW.echoCtrl DBW.sampleStateOn).1.ctrl =
      (DBW.DBWNode.tickStep DBW.echoCtrl DBW.sampleStateOff).1.ctrl := by
  refine ⟨rfl, rfl, rfl, rfl, rfl, rfl, ?_, ?_⟩ <;> decide

/-- C6 as amended: the loop invokes the controller with exactly three per-tick
inputs — target linear velocity, target angular velocity and current linear
velocity — and the tick's published messages and controller evolution are
fully determined by those three scalars together with the controller state and
the one-shot flag; `dbw_enabled` and any elapsed-time quantity play no part. -/
theorem claim_C6_control_invoked_with_three_inputs {C : Type} (f : DBW.CtrlFn C)
    (s1 s2 : DBW.NodeState C) (cmd1 cmd2 v1 v2 : DBW.TwistMsg)
    (hc1 : s1.current_command = some cmd1) (hc2 : s2.current_command = some cmd2)
    (hv1 : s1.current_velocity = some v1) (hv2 : s2.current_velocity = some v2)
    (hlt : cmd1.linear_x = cmd2.linear_x) (hat : cmd1.angular_z = cmd2.angular_z)
    (hlc : v1.linear_x = v2.linear_x) (hctrl : s1.ctrl = s2.ctrl)
    (hos : s1.oneshot = s2.oneshot) :
    (DBW.DBWNode.tickStep f s1).2 = (DBW.DBWNode.tickStep f s2).2 ∧
    (DBW.DBWNode.tickStep f s1).1.ctrl = (DBW.DBWNode.tickStep f s2).1.ctrl ∧
    (DBW.DBWNode.tickStep f s1).1.oneshot = (DBW.DBWNode.tickStep f s2).1.oneshot := by
  have hr : f s1.ctrl cmd1.linear_x cmd1.angular_z v1.linear_x =
      f s2.ctrl cmd2.linear_x cmd2.angular_z v2.linear_x := by
    rw [hlt, hat, hlc, hctrl]
  simp only [DBW.DBWNode.tickStep, hc1, hc2, hv1, hv2, hr]
  unfold DBW.DBWNode.publish
  dsimp only
  rw [hos]
  split_ifs <;> simp

/-- C6 witness: the amended statement at the two concrete sample states with a
concrete control function. -/
theorem claim_C6_witness :
    DBW.sampleStateOn.current_command = some ⟨5, 1⟩ ∧
    DBW.sampleStateOff.current_velocity = some ⟨3, 0⟩ ∧
    ((DBW.DBWNode.tickStep DBW.demoCtrl DBW.sampleStateOn).2 =
        (DBW.DBWNode.tickStep DBW.demoCtrl DBW.sampleStateOff).2 ∧
      (DBW.DBWNode.tickStep DBW.demoCtrl DBW.sampleStateOn).1.ctrl =
        (DBW.DBWNode.tickStep DBW.demoCtrl DBW.sampleStateOff).1.ctrl ∧
      (DBW.DBWNode.tickStep DBW.demoCtrl DBW.sampleStateOn).1.oneshot =
        (DBW.DBWNode.tickStep DBW.demoCtrl DBW.sampleStateOff).1.oneshot) :=
  ⟨rfl, rfl,
    claim_C6_control_invoked_with_three_inputs DBW.demoCtrl DBW.sampleStateOn
      DBW.sampleStateOff ⟨5, 1⟩ ⟨5, 1⟩ ⟨3, 0⟩ ⟨3, 0⟩ rfl rfl rfl rfl rfl rfl
      rfl rfl rfl⟩

/-- C7 counterexample: changing the loaded `vehicle_mass`, `fuel_capacity`,
`brake_deadband` and `wheel_radius` changes nothing in the parameter struct the
controller is constructed with — those four values are not delivered to the
controller, so it does not receive the complete `VehicleParameters`
configuration. -/
theorem claim_C7_counterexample :
    DBW.alteredLoadedParams.vehicle_mass ≠ DBW.defaultLoadedParams.vehicle_mass ∧
    DBW.alteredLoadedParams.fuel_capacity ≠ DBW.defaultLoadedParams.fuel_capacity ∧
    DBW.alteredLoadedParams.brake_deadband ≠ DBW.defaultLoadedParams.brake_deadband ∧
    DBW.alteredLoadedParams.wheel_radius ≠ DBW.defaultLoadedParams.wheel_radius ∧
    DBW.mkControllerParms DBW.alteredLoadedParams =
      DBW.mkControllerParms DBW.defaultLoadedParams := by
  refine ⟨?_, ?_, ?_, ?_, rfl⟩ <;>
    norm_num [DBW.alteredLoadedParams, DBW.defaultLoadedParams]

/-- C7 as amended: at construction the controller receives a seven-field
parameter struct (wheel_base, steer_ratio, min_velocity = 0, max_lat_accel,
max_steer_angle, decel_limit, accel_limit), each of the seven taken from the
loaded configuration except the literal zero `min_velocity`; the loaded
vehicle_mass, fuel_capacity, brake_deadband and wheel_radius are not passed. -/
theorem claim_C7_controller_receives_seven_params (lp : DBW.LoadedParams)
    (m fc bd wr : ℚ) :
    DBW.mkControllerParms
        { lp with
          vehicle_mass := m
          fuel_capacity := fc
          brake_deadband := bd
          wheel_radius := wr } = DBW.mkControllerParms lp ∧
    (DBW.mkControllerParms lp).wheel_base = lp.wheel_base ∧
    (DBW.mkControllerParms lp).steer_ratio = lp.steer_ratio ∧
    (DBW.mkControllerParms lp).min_velocity = 0 ∧
    (DBW.mkControllerParms lp).max_lat_accel = lp.max_lat_accel ∧
    (DBW.mkControllerParms lp).max_steer_angle = lp.max_steer_angle ∧
    (DBW.mkControllerParms lp).decel_limit = lp.decel_limit ∧
    (DBW.mkControllerParms lp).accel_limit = lp.accel_limit :=
  ⟨rfl, rfl, rfl, rfl, rfl, rfl, rfl, rfl⟩

/-- C8 counterexample: the node configures the controller with
`min_velocity = 0`, so at the nonnegative current linear velocity 0 the
yaw-rate divisor `max(current_linear_velocity, min_velocity)` equals 0 — the
configured floor does not keep the divisor non-zero over all nonnegative
velocities. -/
theorem claim_C8_counterexample :
    (DBW.mkControllerParms DBW.defaultLoadedParams).min_velocity = 0 ∧
    (0 : ℚ) ≤ 0 ∧
    Spec.yawRateDivisor (DBW.mkControllerParms DBW.defaultLoadedParams).min_velocity 0 = 0 := by
  refine ⟨rfl, le_refl 0, ?_⟩
  decide

/-- C8 as amended: with the node's configured `min_velocity = 0`, the divisor
`max(current_linear_velocity, min_velocity)` of the lateral-acceleration bound
is non-zero for every positive current linear velocity (but not at zero). -/
theorem claim_C8_divisor_nonzero_for_positive_velocity (cur : ℚ) (h : 0 < cur) :
    Spec.yawRateDivisor (DBW.mkControllerParms DBW.defaultLoadedParams).min_velocity cur ≠ 0 := by
  unfold Spec.yawRateDivisor
  have hz : (DBW.mkControllerParms DBW.defaultLoadedParams).min_velocity = 0 := rfl
  rw [hz]
  intro hmax
  have hle := le_max_left cur (0 : ℚ)
  rw [hmax] at hle
  exact absurd hle (not_le.mpr h)

/-- C8 witness: the amended statement at current linear velocity 1. -/
theorem claim_C8_witness :
    (0 : ℚ) < 1 ∧
    Spec.yawRateDivisor (DBW.mkControllerParms DBW.defaultLoadedParams).min_velocity 1 ≠ 0 :=
  ⟨by norm_num, claim_C8_divisor_nonzero_for_positive_velocity 1 (by norm_num)⟩
